import Mathlib

/-!
Verification of the Observatory-Booking service layer.

The Python service layer (`app/services/weather_service.py`,
`app/services/booking_service.py`, `app/services/admin_service.py`) is
shallowly embedded below: SQLAlchemy rows become Lean structures, the
database becomes an explicit `DBState`, datetimes become integer numbers
of seconds (instants / stored wall-clock values), and Python floats
become rationals.  Each service method is translated into a pure Lean
function on the state, and the spec claims are proved about those
functions.
-/

namespace ObservatoryBooking

/-! ## Weather rating engine (`weather_service.py`) -/

/-- One hour of weather metrics, as handed to
`WeatherService.calculate_hourly_rating`.  Every field is optional,
mirroring the `weather.get(key, default)` lookups in the source. -/
structure WeatherMetrics where
  cloud_cover : Option ℚ
  precipitation_probability : Option ℚ
  dew_point : Option ℚ
  visibility : Option ℚ
deriving DecidableEq, Repr

/-- `WeatherService.DEW_POINT_THRESHOLD_LOW` (5.0 °C). -/
def DEW_POINT_THRESHOLD_LOW : ℚ := 5

/-- `WeatherService.DEW_POINT_THRESHOLD_HIGH` (10.0 °C). -/
def DEW_POINT_THRESHOLD_HIGH : ℚ := 10

/-- `WeatherService.IDEAL_VISIBILITY` (20000 m). -/
def IDEAL_VISIBILITY : ℚ := 20000

/-- `WeatherService.calculate_hourly_rating`.  The weights 0.4 / 0.3 /
0.15 / 0.15 are the entries of `WeatherService.WEIGHTS`; the defaults
100 / 100 / `DEW_POINT_THRESHOLD_HIGH` / 0 are the `weather.get`
defaults of the source. -/
def calculate_hourly_rating (weather : WeatherMetrics) : ℚ :=
  let cloud_rating := max 0 (100 - weather.cloud_cover.getD 100)
  let precip_rating := max 0 (100 - weather.precipitation_probability.getD 100)
  let dew_point := weather.dew_point.getD DEW_POINT_THRESHOLD_HIGH
  let dew_rating :=
    if dew_point < DEW_POINT_THRESHOLD_LOW then (100 : ℚ)
    else if dew_point ≤ DEW_POINT_THRESHOLD_HIGH then
      100 - (dew_point - DEW_POINT_THRESHOLD_LOW) *
        (100 / (DEW_POINT_THRESHOLD_HIGH - DEW_POINT_THRESHOLD_LOW))
    else 0
  let visibility := weather.visibility.getD 0
  let visibility_rating := min 100 (visibility / IDEAL_VISIBILITY * 100)
  (4/10) * cloud_rating + (3/10) * precip_rating
    + (15/100) * dew_rating + (15/100) * visibility_rating

/-- `WeatherService.calculate_average_weather_rating`: arithmetic mean of
the hourly ratings, `0` on an empty list. -/
def calculate_average_weather_rating (hourly_weather : List WeatherMetrics) : ℚ :=
  if hourly_weather.isEmpty then 0
  else (hourly_weather.map calculate_hourly_rating).sum / hourly_weather.length

/-- Spec-side dew rating, written from the claim wording: 100 below 5 °C,
a linear ramp from 100 down to 0 between 5 °C and 10 °C, 0 above 10 °C. -/
def spec_dew_rating (d : ℚ) : ℚ :=
  if d < 5 then 100 else if d ≤ 10 then 20 * (10 - d) else 0

/-- Spec-side hourly rating, written from the claim wording:
`0.4*max(0,100-c) + 0.3*max(0,100-p) + 0.15*dew(d) + 0.15*min(100, v/20000*100)`. -/
def spec_hourly_rating (c p d v : ℚ) : ℚ :=
  (4/10) * max 0 (100 - c) + (3/10) * max 0 (100 - p)
    + (15/100) * spec_dew_rating d + (15/100) * min 100 (v / 20000 * 100)

/-! ## Booking ledger state model (`booking_service.py`, `models.py`) -/

/-- A row of the `users` table, restricted to the fields the booking
service reads. -/
structure User where
  id : ℤ
  blocked : Bool
deriving DecidableEq, Repr

/-- A row of the `slots` table. `start_time` and `end_time` are the
stored (naive UTC) datetimes, modelled as integer seconds. -/
structure Slot where
  id : ℤ
  title : String
  description : String
  start_time : ℤ
  end_time : ℤ
  max_bookings : ℕ
  available : Bool
  weather_rating : Option ℚ
  weather_warning : Bool
  weather_forecast : Bool
deriving DecidableEq, Repr

/-- A row of the `bookings` table. -/
structure Booking where
  user_id : ℤ
  slot_id : ℤ
  status : String
deriving DecidableEq, Repr

/-- The relational store seen by the services. -/
structure DBState where
  users : List User
  slots : List Slot
  bookings : List Booking
deriving DecidableEq, Repr

/-- `db.query(User).filter_by(id=user_id).first()`. -/
def findUser (s : DBState) (user_id : ℤ) : Option User :=
  s.users.find? (fun u => u.id == user_id)

/-- `db.query(Slot).filter_by(id=slot_id).first()`. -/
def findSlot (s : DBState) (slot_id : ℤ) : Option Slot :=
  s.slots.find? (fun t => t.id == slot_id)

/-- Predicate of the query `Booking.slot_id == slot_id AND status == "confirmed"`. -/
def isConfirmedFor (slot_id : ℤ) (b : Booking) : Bool :=
  b.slot_id == slot_id && b.status == "confirmed"

/-- Predicate of the query
`Booking.user_id == user_id AND Booking.slot_id == slot_id AND status == "confirmed"`. -/
def isConfirmedBooking (user_id slot_id : ℤ) (b : Booking) : Bool :=
  b.user_id == user_id && (b.slot_id == slot_id && b.status == "confirmed")

/-- The `.count()` of confirmed bookings for a slot. -/
def confirmedCount (s : DBState) (slot_id : ℤ) : ℕ :=
  s.bookings.countP (isConfirmedFor slot_id)

/-- Assignment `slot.available = b` on the slot row with the given id. -/
def setAvailable (s : DBState) (slot_id : ℤ) (b : Bool) : DBState :=
  { s with slots := s.slots.map fun t =>
      if t.id == slot_id then { t with available := b } else t }

/-- `db.add(Booking(user_id=..., slot_id=..., status="confirmed"))`. -/
def book_insert (s : DBState) (user_id slot_id : ℤ) : DBState :=
  { s with bookings := s.bookings ++ [⟨user_id, slot_id, "confirmed"⟩] }

/-- `db.delete(booking)` on the first confirmed booking row of the pair. -/
def cancel_erase (s : DBState) (user_id slot_id : ℤ) : DBState :=
  { s with bookings := s.bookings.eraseP (isConfirmedBooking user_id slot_id) }

/-- `BookingService.book_slot`.  `now` is the current wall-clock value in
the configured timezone (the code attaches that timezone to the stored
naive start time before comparing, so the comparison is wall-clock on
both sides); `rate_limited` is the result of `is_rate_limited(user_id)`.
Returns the user-facing message and the committed state. -/
def book_slot (now : ℤ) (rate_limited : Bool) (user_id slot_id : ℤ)
    (s : DBState) : String × DBState :=
  match findUser s user_id with
  | none => ("User not found.", s)
  | some user =>
    if user.blocked then ("Your account is blocked.", s)
    else match findSlot s slot_id with
    | none => ("Event not found.", s)
    | some slot =>
      if rate_limited then ("You are rate-limited. Please try again later.", s)
      else if slot.start_time ≤ now then
        ("Event is no longer available for booking.", s)
      else if s.bookings.any (isConfirmedBooking user_id slot_id) then
        ("You have already booked this event.", s)
      else if slot.max_bookings ≤ confirmedCount s slot_id then
        ("Event is fully booked.", s)
      else
        ("Booking confirmed.",
          if slot.max_bookings ≤ confirmedCount s slot_id + 1 then
            setAvailable (book_insert s user_id slot_id) slot_id false
          else book_insert s user_id slot_id)

/-- `BookingService.cancel_booking`, with the same conventions as
`book_slot`. -/
def cancel_booking (now : ℤ) (rate_limited : Bool) (user_id slot_id : ℤ)
    (s : DBState) : String × DBState :=
  match findUser s user_id with
  | none => ("User not found.", s)
  | some user =>
    if user.blocked then ("Your account is blocked.", s)
    else match findSlot s slot_id with
    | none => ("Event not found.", s)
    | some slot =>
      if rate_limited then ("You are rate-limited. Please try again later.", s)
      else match s.bookings.find? (isConfirmedBooking user_id slot_id) with
      | none => ("No active booking found for this event.", s)
      | some _ =>
        if slot.start_time ≤ now then
          ("Cannot cancel booking after event has started.", s)
        else
          ("Booking cancelled successfully.",
            if confirmedCount (cancel_erase s user_id slot_id) slot_id
                < slot.max_bookings then
              setAvailable (cancel_erase s user_id slot_id) slot_id true
            else cancel_erase s user_id slot_id)

/-- Capacity invariant of the spec: the confirmed count of every slot
never exceeds `max_bookings`, and `available` is false exactly when the
count has reached `max_bookings`. -/
abbrev CapacityInv (s : DBState) : Prop :=
  ∀ t ∈ s.slots, confirmedCount s t.id ≤ t.max_bookings ∧
    (t.available = false ↔ t.max_bookings ≤ confirmedCount s t.id)

/-- Primary-key uniqueness of the `slots` table. -/
abbrev UniqueSlotIds (s : DBState) : Prop :=
  (s.slots.map Slot.id).Nodup

/-- At most one confirmed booking per (user, slot) pair. -/
abbrev AtMostOnePerUserSlot (s : DBState) : Prop :=
  ∀ user_id slot_id : ℤ,
    s.bookings.countP (isConfirmedBooking user_id slot_id) ≤ 1

/-! ## Weather provider (`weather_service.py`) -/

/-- `WeatherService._generate_hourly_range`: hourly instants from the
hour-floor of `start` up to `end`, inclusive.  Timezone conversion keeps
the instant, so instants are plain integer seconds here. -/
def generate_hourly_range (start endT : ℤ) : List ℤ :=
  let start0 := start - start % 3600
  (List.range ((endT - start0).fdiv 3600 + 1).toNat).map
    fun i : ℕ => start0 + 3600 * (i : ℤ)

/-- Lookup of one hour in the fetched forecast map (`hour in weather_data`
/ `weather_data[hour]`), the map being an association list. -/
def lookupHour (data : List (ℤ × WeatherMetrics)) (h : ℤ) : Option WeatherMetrics :=
  (data.find? (fun kv => kv.1 == h)).map Prod.snd

/-- `WeatherService.get_event_weather`.  The fetched forecast map is a
parameter (the HTTP fetch is an external collaborator).  Returns
(rating, warning, forecast-present). -/
def get_event_weather (weather_data : List (ℤ × WeatherMetrics))
    (event_start event_end : ℤ) (weather_threshold : ℚ) :
    Option ℚ × Bool × Bool :=
  let hourly_data := (generate_hourly_range event_start event_end).filterMap
    (lookupHour weather_data)
  let rating : Option ℚ :=
    if hourly_data.isEmpty then none
    else some (calculate_average_weather_rating hourly_data)
  let warning := match rating with
    | some r => decide (r < weather_threshold)
    | none => false
  (rating, warning, !hourly_data.isEmpty)

/-- `WeatherService._update_event_weather` on a single slot. -/
def update_event_weather (event : Slot)
    (forecast_data : List (ℤ × WeatherMetrics)) (weather_threshold : ℚ) : Slot :=
  let hourly_data := (generate_hourly_range event.start_time
    event.end_time).filterMap (lookupHour forecast_data)
  if hourly_data.isEmpty then { event with weather_forecast := false }
  else
    let r := calculate_average_weather_rating hourly_data
    { event with weather_rating := some r,
                 weather_warning := decide (r < weather_threshold),
                 weather_forecast := true }

/-- The filter of `WeatherService._get_upcoming_events`:
`now_utc <= start_time <= now_utc + 7 days`. -/
def is_upcoming (now_utc : ℤ) (event : Slot) : Bool :=
  decide (now_utc ≤ event.start_time) &&
    decide (event.start_time ≤ now_utc + 7 * 86400)

/-- `WeatherService.update_events_weather`: refresh every upcoming slot
in place, leaving the rest of the store untouched. -/
def update_events_weather (now_utc : ℤ)
    (forecast_data : List (ℤ × WeatherMetrics)) (weather_threshold : ℚ)
    (s : DBState) : DBState :=
  { s with slots := s.slots.map fun e =>
      if is_upcoming now_utc e then
        update_event_weather e forecast_data weather_threshold
      else e }

/-! ## Slot scheduler overlap checks (`admin_service.py`) -/

/-- `start_time.replace(hour=0, minute=0, second=0, microsecond=0)`:
floor an instant to its UTC calendar day. -/
def day_floor (t : ℤ) : ℤ := t - t % 86400

/-- The `Slot.id != existing_event.id` filter appended to every overlap
query when an existing event is being edited. -/
def otherSlots (slots : List Slot) (existing : Option ℤ) : List Slot :=
  match existing with
  | none => slots
  | some eid => slots.filter (fun t => !(t.id == eid))

/-- `AdminService._check_same_day_start`. -/
def check_same_day_start (slots : List Slot) (existing : Option ℤ)
    (start_time : ℤ) : Bool :=
  (otherSlots slots existing).any fun t =>
    decide (day_floor start_time ≤ t.start_time) &&
      decide (t.start_time < day_floor start_time + 86400)

/-- `AdminService._check_prev_day_overlap`. -/
def check_prev_day_overlap (slots : List Slot) (existing : Option ℤ)
    (start_time : ℤ) : Bool :=
  (otherSlots slots existing).any fun t =>
    decide (day_floor start_time - 86400 ≤ t.start_time) &&
      (decide (t.start_time < day_floor start_time) &&
        decide (start_time < t.end_time))

/-- `AdminService._check_next_day_overlap`. -/
def check_next_day_overlap (slots : List Slot) (existing : Option ℤ)
    (end_time : ℤ) : Bool :=
  (otherSlots slots existing).any fun t =>
    decide (day_floor end_time + 86400 ≤ t.start_time) &&
      (decide (t.start_time < day_floor end_time + 86400 + 86400) &&
        decide (t.start_time < end_time))

/-- The general-overlap query of `AdminService._save_event`:
`Slot.end_time > start_time AND Slot.start_time < end_time`, first row. -/
def find_general_overlap (slots : List Slot) (existing : Option ℤ)
    (start_time end_time : ℤ) : Option Slot :=
  (otherSlots slots existing).find? fun t =>
    decide (start_time < t.end_time) && decide (t.start_time < end_time)

/-- `AdminService._save_event`: the four overlap checks in order, then
update-in-place (editing) or insert (creating).  `new_id` stands for the
autoincrement id the database would assign. -/
def save_event (slots : List Slot) (existing : Option ℤ) (new_id : ℤ)
    (title description : String) (start_time end_time : ℤ)
    (max_bookings : ℕ) (weather_rating : Option ℚ)
    (weather_warning weather_forecast : Bool) : String × List Slot :=
  if check_same_day_start slots existing start_time then
    ("Only one event can start per day.", slots)
  else if check_prev_day_overlap slots existing start_time then
    ("Start time overlaps with previous day\x27s event.", slots)
  else if check_next_day_overlap slots existing end_time then
    ("End time overlaps with next day\x27s event.", slots)
  else
    match find_general_overlap slots existing start_time end_time with
    | some t =>
      ("Time conflict with another event (ID: " ++ toString t.id ++ ").", slots)
    | none =>
      match existing with
      | some eid =>
        ("Event updated successfully.",
          slots.map fun t =>
            if t.id == eid then
              { t with
                title := title
                description := description
                end_time := end_time
                start_time := start_time
                max_bookings := max_bookings
                weather_rating := weather_rating
                weather_warning := weather_warning
                weather_forecast := weather_forecast
                available := true }
            else t)
      | none =>
        ("Event created successfully.",
          slots ++ [⟨new_id, title, description, start_time, end_time,
            max_bookings, true, weather_rating, weather_warning,
            weather_forecast⟩])

/-- A concrete user for witness states. -/
def sampleUser : User := ⟨1, false⟩

/-- A concrete slot (capacity 2, starts at time 1000) for witness states. -/
def sampleSlot : Slot :=
  ⟨10, "Obs night", "Stargazing session", 1000, 2000, 2, true, none, false, false⟩

/-- A concrete store with one user, one slot and no bookings. -/
def sampleState : DBState := ⟨[sampleUser], [sampleSlot], []⟩

/-- `sampleState` after user 1 booked slot 10. -/
def sampleStateBooked : DBState :=
  ⟨[sampleUser], [sampleSlot], [⟨1, 10, "confirmed"⟩]⟩

/-! ## Helper lemmas about the state operations -/

lemma isConfirmedBooking_imp {user_id slot_id : ℤ} {b : Booking}
    (h : isConfirmedBooking user_id slot_id b = true) :
    isConfirmedFor slot_id b = true := by
  simp only [isConfirmedBooking, isConfirmedFor, Bool.and_eq_true] at h ⊢
  exact h.2

lemma isConfirmedBooking_slot_eq {user_id slot_id : ℤ} {b : Booking}
    (h : isConfirmedBooking user_id slot_id b = true) : b.slot_id = slot_id := by
  simp only [isConfirmedBooking, Bool.and_eq_true, beq_iff_eq] at h
  exact h.2.1

lemma countP_eraseP_succ {α : Type} {p q : α → Bool} {l : List α} {a : α}
    (h : l.find? p = some a) (hq : ∀ x, p x = true → q x = true) :
    (l.eraseP p).countP q + 1 = l.countP q := by
  induction l with
  | nil => simp at h
  | cons x xs ih =>
    by_cases hx : p x = true
    · rw [List.eraseP_cons_of_pos hx, List.countP_cons, hq x hx]
      simp
    · have h' : xs.find? p = some a := by
        rw [List.find?_cons] at h
        cases hpx : p x with
        | true => exact absurd hpx hx
        | false => rw [hpx] at h; exact h
      rw [List.eraseP_cons_of_neg hx, List.countP_cons, List.countP_cons]
      have := ih h'
      omega

lemma countP_eraseP_of_disjoint {α : Type} {p q : α → Bool} {l : List α}
    (hq : ∀ x, p x = true → q x = false) :
    (l.eraseP p).countP q = l.countP q := by
  induction l with
  | nil => rfl
  | cons x xs ih =>
    by_cases hx : p x = true
    · rw [List.eraseP_cons_of_pos hx, List.countP_cons, hq x hx]
      simp
    · rw [List.eraseP_cons_of_neg hx, List.countP_cons, List.countP_cons, ih]

lemma find?_append_singleton {α : Type} {p : α → Bool} {l : List α} {a : α}
    (h : ∀ x ∈ l, p x = false) (ha : p a = true) :
    (l ++ [a]).find? p = some a := by
  rw [List.find?_append]
  have hnone : l.find? p = none :=
    List.find?_eq_none.mpr (fun x hx => by simp [h x hx])
  rw [hnone]
  simp [List.find?_cons, ha]

lemma eraseP_append_singleton {α : Type} {p : α → Bool} {l : List α} {a : α}
    (h : ∀ x ∈ l, p x = false) (ha : p a = true) :
    (l ++ [a]).eraseP p = l := by
  induction l with
  | nil => simp [List.eraseP_cons_of_pos ha]
  | cons x xs ih =>
    have hx : p x = false := h x (by simp)
    rw [List.cons_append, List.eraseP_cons_of_neg (by simp [hx])]
    rw [ih (fun y hy => h y (by simp [hy]))]

lemma confirmedCount_setAvailable (s : DBState) (slot_id i : ℤ) (b : Bool) :
    confirmedCount (setAvailable s slot_id b) i = confirmedCount s i := rfl

lemma confirmedCount_book_insert (s : DBState) (user_id slot_id i : ℤ) :
    confirmedCount (book_insert s user_id slot_id) i =
      confirmedCount s i + if slot_id = i then 1 else 0 := by
  unfold confirmedCount book_insert
  rw [List.countP_append]
  by_cases h : slot_id = i <;>
    simp [List.countP_cons, isConfirmedFor, h]

lemma find?_map_setAvail (l : List Slot) (slot_id : ℤ) (b : Bool) :
    (l.map fun t =>
        if t.id == slot_id then { t with available := b } else t).find?
      (fun t => t.id == slot_id) =
      (l.find? (fun t => t.id == slot_id)).map
        fun t => { t with available := b } := by
  rw [List.find?_map]
  have hpg : ((fun t : Slot => t.id == slot_id) ∘ fun t =>
      if t.id == slot_id then { t with available := b } else t) =
      fun t : Slot => t.id == slot_id := by
    funext t
    by_cases h : t.id = slot_id <;> simp [Function.comp, h]
  rw [hpg]
  cases hf : l.find? (fun t => t.id == slot_id) with
  | none => rfl
  | some t =>
    have hp := List.find?_some (p := fun t : Slot => t.id == slot_id) hf
    simp only [beq_iff_eq] at hp
    simp [hp]

lemma findSlot_setAvailable (s : DBState) (slot_id : ℤ) (b : Bool) :
    findSlot (setAvailable s slot_id b) slot_id =
      (findSlot s slot_id).map fun t => { t with available := b } := by
  unfold findSlot setAvailable
  exact find?_map_setAvail s.slots slot_id b

lemma eq_of_mem_findSlot {s : DBState} {slot_id : ℤ} {slot t : Slot}
    (hids : UniqueSlotIds s) (hf : findSlot s slot_id = some slot)
    (ht : t ∈ s.slots) (hid : t.id = slot_id) : t = slot := by
  have hmem := List.mem_of_find?_eq_some hf
  have hps : slot.id = slot_id := by simpa using List.find?_some hf
  exact List.inj_on_of_nodup_map hids ht hmem (by rw [hid, hps])

/-- Case analysis of `book_slot`: either it rejects (fixed message, state
unchanged) or every guard passed and it commits the insert plus the
availability update. -/
lemma book_slot_spec (now : ℤ) (rl : Bool) (user_id slot_id : ℤ) (s : DBState) :
    ((book_slot now rl user_id slot_id s).2 = s ∧
      (book_slot now rl user_id slot_id s).1 ≠ "Booking confirmed.") ∨
    (∃ slot, findSlot s slot_id = some slot ∧ rl = false ∧
      now < slot.start_time ∧
      (∀ x ∈ s.bookings, ¬ isConfirmedBooking user_id slot_id x = true) ∧
      confirmedCount s slot_id < slot.max_bookings ∧
      book_slot now rl user_id slot_id s =
        ("Booking confirmed.",
          if slot.max_bookings ≤ confirmedCount s slot_id + 1 then
            setAvailable (book_insert s user_id slot_id) slot_id false
          else book_insert s user_id slot_id)) := by
  unfold book_slot
  cases hfu : findUser s user_id with
  | none => exact Or.inl ⟨rfl, by simp⟩
  | some user =>
    dsimp only
    by_cases hb : user.blocked = true
    · rw [if_pos hb]; exact Or.inl ⟨rfl, by simp⟩
    rw [if_neg hb]
    cases hfs : findSlot s slot_id with
    | none => exact Or.inl ⟨rfl, by simp⟩
    | some slot =>
      dsimp only
      by_cases hrl : rl = true
      · rw [if_pos hrl]; exact Or.inl ⟨rfl, by simp⟩
      rw [if_neg hrl]
      by_cases ht : slot.start_time ≤ now
      · rw [if_pos ht]; exact Or.inl ⟨rfl, by simp⟩
      rw [if_neg ht]
      by_cases hdup : s.bookings.any (isConfirmedBooking user_id slot_id) = true
      · rw [if_pos hdup]; exact Or.inl ⟨rfl, by simp⟩
      rw [if_neg hdup]
      by_cases hfull : slot.max_bookings ≤ confirmedCount s slot_id
      · rw [if_pos hfull]; exact Or.inl ⟨rfl, by simp⟩
      rw [if_neg hfull]
      refine Or.inr ⟨slot, rfl, by simpa using hrl, by omega, ?_, by omega, rfl⟩
      intro x hx hpx
      exact hdup (List.any_eq_true.mpr ⟨x, hx, hpx⟩)

/-- Case analysis of `cancel_booking`: either it rejects (state
unchanged) or every guard passed and it commits the row deletion plus
the availability update. -/
lemma cancel_booking_spec (now : ℤ) (rl : Bool) (user_id slot_id : ℤ) (s : DBState) :
    ((cancel_booking now rl user_id slot_id s).2 = s ∧
      (cancel_booking now rl user_id slot_id s).1 ≠ "Booking cancelled successfully.") ∨
    (∃ slot b, findSlot s slot_id = some slot ∧ rl = false ∧
      s.bookings.find? (isConfirmedBooking user_id slot_id) = some b ∧
      now < slot.start_time ∧
      cancel_booking now rl user_id slot_id s =
        ("Booking cancelled successfully.",
          if confirmedCount (cancel_erase s user_id slot_id) slot_id
              < slot.max_bookings then
            setAvailable (cancel_erase s user_id slot_id) slot_id true
          else cancel_erase s user_id slot_id)) := by
  unfold cancel_booking
  cases hfu : findUser s user_id with
  | none => exact Or.inl ⟨rfl, by simp⟩
  | some user =>
    dsimp only
    by_cases hb : user.blocked = true
    · rw [if_pos hb]; exact Or.inl ⟨rfl, by simp⟩
    rw [if_neg hb]
    cases hfs : findSlot s slot_id with
    | none => exact Or.inl ⟨rfl, by simp⟩
    | some slot =>
      dsimp only
      by_cases hrl : rl = true
      · rw [if_pos hrl]; exact Or.inl ⟨rfl, by simp⟩
      rw [if_neg hrl]
      cases hfb : s.bookings.find? (isConfirmedBooking user_id slot_id) with
      | none => exact Or.inl ⟨rfl, by simp⟩
      | some b =>
        dsimp only
        by_cases ht : slot.start_time ≤ now
        · rw [if_pos ht]; exact Or.inl ⟨rfl, by simp⟩
        rw [if_neg ht]
        exact Or.inr ⟨slot, b, rfl, by simpa using hrl, rfl, by omega, rfl⟩

/-- C3: for every hourly observation the code's hourly rating equals the
spec's weighted-sum formula, and the three pinned evaluations hold:
rating(c=0,p=0,d=0,v=20000) = 100, rating(c=100,p=100,d=10,v=0) = 0, and
the dew component at 7.5 °C is 50. -/
theorem C3_hourly_rating_formula :
    (∀ c p d v : ℚ,
      calculate_hourly_rating ⟨some c, some p, some d, some v⟩ =
        spec_hourly_rating c p d v) ∧
    calculate_hourly_rating ⟨some 0, some 0, some 0, some 20000⟩ = 100 ∧
    calculate_hourly_rating ⟨some 100, some 100, some 10, some 0⟩ = 0 ∧
    spec_dew_rating (15/2) = 50 := by
  refine ⟨fun c p d v => ?_, by norm_num [calculate_hourly_rating,
      DEW_POINT_THRESHOLD_LOW, DEW_POINT_THRESHOLD_HIGH, IDEAL_VISIBILITY],
    by norm_num [calculate_hourly_rating,
      DEW_POINT_THRESHOLD_LOW, DEW_POINT_THRESHOLD_HIGH, IDEAL_VISIBILITY],
    by norm_num [spec_dew_rating]⟩
  simp only [calculate_hourly_rating, spec_hourly_rating, spec_dew_rating,
    DEW_POINT_THRESHOLD_LOW, DEW_POINT_THRESHOLD_HIGH, IDEAL_VISIBILITY,
    Option.getD_some]
  split_ifs <;> ring_nf

/-- C10: with cloud and precipitation in [0,100], nonnegative visibility
and arbitrary dew point the hourly rating lies in [0,100]; a metrics map
missing all four keys is scored with the worst-case defaults and rates 0. -/
theorem C10_hourly_rating_bounds :
    (∀ c p d v : ℚ, 0 ≤ c → c ≤ 100 → 0 ≤ p → p ≤ 100 → 0 ≤ v →
      0 ≤ calculate_hourly_rating ⟨some c, some p, some d, some v⟩ ∧
        calculate_hourly_rating ⟨some c, some p, some d, some v⟩ ≤ 100) ∧
    calculate_hourly_rating ⟨none, none, none, none⟩ = 0 := by
  constructor
  · intro c p d v hc0 hc1 hp0 hp1 hv0
    have hcloud : 0 ≤ max (0:ℚ) (100 - c) ∧ max (0:ℚ) (100 - c) ≤ 100 :=
      ⟨le_max_left _ _, max_le (by norm_num) (by linarith)⟩
    have hprecip : 0 ≤ max (0:ℚ) (100 - p) ∧ max (0:ℚ) (100 - p) ≤ 100 :=
      ⟨le_max_left _ _, max_le (by norm_num) (by linarith)⟩
    have hvis : 0 ≤ min (100:ℚ) (v / 20000 * 100) ∧
        min (100:ℚ) (v / 20000 * 100) ≤ 100 :=
      ⟨le_min (by norm_num) (by positivity), min_le_left _ _⟩
    simp only [calculate_hourly_rating, DEW_POINT_THRESHOLD_LOW,
      DEW_POINT_THRESHOLD_HIGH, IDEAL_VISIBILITY, Option.getD_some]
    split_ifs with h1 h2
    · constructor <;> nlinarith [hcloud.1, hcloud.2, hprecip.1, hprecip.2, hvis.1, hvis.2]
    · have hdew0 : (0:ℚ) ≤ 100 - (d - 5) * (100 / (10 - 5)) := by
        push_neg at h1; norm_num at h2 ⊢; linarith
      have hdew1 : 100 - (d - 5) * (100 / (10 - 5)) ≤ (100:ℚ) := by
        push_neg at h1; norm_num; linarith
      constructor <;> nlinarith [hcloud.1, hcloud.2, hprecip.1, hprecip.2, hvis.1, hvis.2]
    · constructor <;> nlinarith [hcloud.1, hcloud.2, hprecip.1, hprecip.2, hvis.1, hvis.2]
  · norm_num [calculate_hourly_rating, DEW_POINT_THRESHOLD_LOW,
      DEW_POINT_THRESHOLD_HIGH, IDEAL_VISIBILITY]

/-- Witness for C10 at cloud 50, precipitation 50, dew point 7, visibility 1000. -/
theorem C10_hourly_rating_bounds_witness :
    0 ≤ calculate_hourly_rating ⟨some 50, some 50, some 7, some 1000⟩ ∧
      calculate_hourly_rating ⟨some 50, some 50, some 7, some 1000⟩ ≤ 100 :=
  C10_hourly_rating_bounds.1 50 50 7 1000 (by norm_num) (by norm_num)
    (by norm_num) (by norm_num) (by norm_num)

lemma findSlot_mem {s : DBState} {slot_id : ℤ} {slot : Slot}
    (h : findSlot s slot_id = some slot) : slot ∈ s.slots :=
  List.mem_of_find?_eq_some h

lemma findSlot_id {s : DBState} {slot_id : ℤ} {slot : Slot}
    (h : findSlot s slot_id = some slot) : slot.id = slot_id := by
  have := List.find?_some (p := fun t : Slot => t.id == slot_id) h
  simpa using this

/-- C1: a sequential `book_slot` and a sequential `cancel_booking` both
preserve the capacity invariant: for every slot the confirmed-booking
count never exceeds `max_bookings`, and `available` is false exactly
when the count is at least `max_bookings`. -/
theorem C1_capacity_invariant (now : ℤ) (rl : Bool) (user_id slot_id : ℤ)
    (s : DBState) (hids : UniqueSlotIds s) (hinv : CapacityInv s) :
    CapacityInv (book_slot now rl user_id slot_id s).2 ∧
    CapacityInv (cancel_booking now rl user_id slot_id s).2 := by
  constructor
  · rcases book_slot_spec now rl user_id slot_id s with
      ⟨heq, -⟩ | ⟨slot, hfs, -, -, -, hfull, heq⟩
    · rw [heq]; exact hinv
    · rw [heq]
      have hsid : slot.id = slot_id := findSlot_id hfs
      by_cases hcap : slot.max_bookings ≤ confirmedCount s slot_id + 1
      · rw [if_pos hcap]
        intro t' ht'
        rcases List.mem_map.mp ht' with ⟨t, htmem, rfl⟩
        by_cases hid : t.id = slot_id
        · have hteq : t = slot := eq_of_mem_findSlot hids hfs htmem hid
          subst hteq
          rw [if_pos (by simp [hid] : (t.id == slot_id) = true)]
          dsimp only
          simp only [confirmedCount_setAvailable, confirmedCount_book_insert]
          rw [if_pos hid.symm, hid]
          exact ⟨by omega, fun _ => hcap, fun _ => trivial⟩
        · rw [if_neg (by simp [hid] : ¬ (t.id == slot_id) = true)]
          simp only [confirmedCount_setAvailable, confirmedCount_book_insert]
          rw [if_neg (fun hh => hid hh.symm)]
          simpa using hinv t htmem
      · rw [if_neg hcap]
        intro t ht
        by_cases hid : t.id = slot_id
        · have hteq : t = slot := eq_of_mem_findSlot hids hfs ht hid
          subst hteq
          simp only [confirmedCount_book_insert]
          rw [if_pos hid.symm, hid]
          have hav : t.available = true := by
            rcases (hinv t ht).2 with ⟨h1, h2⟩
            cases hA : t.available with
            | false => exact absurd (h1 hA) (by rw [hsid]; omega)
            | true => rfl
          refine ⟨by omega, ?_⟩
          rw [hav]
          constructor
          · intro h; exact absurd h (by simp)
          · intro h; exact absurd h (by omega)
        · simp only [confirmedCount_book_insert]
          rw [if_neg (fun hh => hid hh.symm)]
          simpa using hinv t ht
  · rcases cancel_booking_spec now rl user_id slot_id s with
      ⟨heq, -⟩ | ⟨slot, b, hfs, -, hfind, -, heq⟩
    · rw [heq]; exact hinv
    · rw [heq]
      have hsid : slot.id = slot_id := findSlot_id hfs
      have hslotmem : slot ∈ s.slots := findSlot_mem hfs
      have hn1 : confirmedCount (cancel_erase s user_id slot_id) slot_id + 1 =
          confirmedCount s slot_id :=
        countP_eraseP_succ hfind (fun x hx => isConfirmedBooking_imp hx)
      have hle : confirmedCount s slot_id ≤ slot.max_bookings := by
        have := (hinv slot hslotmem).1
        rwa [hsid] at this
      have hcond : confirmedCount (cancel_erase s user_id slot_id) slot_id
          < slot.max_bookings := by omega
      rw [if_pos hcond]
      intro t' ht'
      rcases List.mem_map.mp ht' with ⟨t, htmem, rfl⟩
      by_cases hid : t.id = slot_id
      · have hteq : t = slot := eq_of_mem_findSlot hids hfs htmem hid
        subst hteq
        rw [if_pos (by simp [hid] : (t.id == slot_id) = true)]
        simp only [confirmedCount_setAvailable, hsid]
        refine ⟨by omega, ?_, ?_⟩
        · intro h; exact absurd h (by simp)
        · intro h; exact absurd h (by omega)
      · rw [if_neg (by simp [hid] : ¬ (t.id == slot_id) = true)]
        simp only [confirmedCount_setAvailable]
        have hdisj : ∀ x, isConfirmedBooking user_id slot_id x = true →
            isConfirmedFor t.id x = false := by
          intro x hx
          have hx2 := isConfirmedBooking_slot_eq hx
          have hne : slot_id ≠ t.id := fun hh => hid hh.symm
          simp [isConfirmedFor, hx2, hne]
        have hcount : confirmedCount (cancel_erase s user_id slot_id) t.id =
            confirmedCount s t.id := countP_eraseP_of_disjoint hdisj
        rw [hcount]
        exact hinv t htmem

/-- C2: a duplicate confirmed booking makes `book_slot` return the fixed
rejection message with no state change, and both operations preserve
at-most-one-confirmed-booking per (user, slot) pair. -/
theorem C2_at_most_one_booking (now : ℤ) (rl : Bool) (user_id slot_id : ℤ)
    (s : DBState) :
    (∀ user slot, findUser s user_id = some user → user.blocked = false →
      findSlot s slot_id = some slot → rl = false → now < slot.start_time →
      s.bookings.any (isConfirmedBooking user_id slot_id) = true →
      book_slot now rl user_id slot_id s =
        ("You have already booked this event.", s)) ∧
    (AtMostOnePerUserSlot s →
      AtMostOnePerUserSlot (book_slot now rl user_id slot_id s).2 ∧
      AtMostOnePerUserSlot (cancel_booking now rl user_id slot_id s).2) := by
  constructor
  · intro user slot hfu hb hfs hrl ht hdup
    unfold book_slot
    rw [hfu]; dsimp only
    rw [if_neg (by simp [hb]), hfs]; dsimp only
    rw [if_neg (by simp [hrl]), if_neg (by omega), if_pos hdup]
  · intro hone
    constructor
    · rcases book_slot_spec now rl user_id slot_id s with
        ⟨heq, -⟩ | ⟨slot, hfs, -, -, hnone, -, heq⟩
      · rw [heq]; exact hone
      · rw [heq]
        intro u i
        dsimp only
        have hbk : (if slot.max_bookings ≤ confirmedCount s slot_id + 1 then
            setAvailable (book_insert s user_id slot_id) slot_id false
          else book_insert s user_id slot_id).bookings =
            s.bookings ++ [⟨user_id, slot_id, "confirmed"⟩] := by
          split <;> rfl
        rw [hbk, List.countP_append]
        by_cases hui : u = user_id ∧ i = slot_id
        · obtain ⟨rfl, rfl⟩ := hui
          have h0 : s.bookings.countP (isConfirmedBooking u i) = 0 :=
            List.countP_eq_zero.mpr (fun x hx => hnone x hx)
          have h1 := List.countP_le_length
            (p := isConfirmedBooking u i) (l := [⟨u, i, "confirmed"⟩])
          simp at h1
          omega
        · have hpb : isConfirmedBooking u i ⟨user_id, slot_id, "confirmed"⟩ = false := by
            by_cases h1 : user_id = u
            · by_cases h2 : slot_id = i
              · exact absurd ⟨h1.symm, h2.symm⟩ hui
              · simp [isConfirmedBooking, h2]
            · simp [isConfirmedBooking, h1]
          have hsing : List.countP (isConfirmedBooking u i)
              [⟨user_id, slot_id, "confirmed"⟩] = 0 := by
            simp [List.countP_cons, hpb]
          rw [hsing]
          have := hone u i
          omega
    · rcases cancel_booking_spec now rl user_id slot_id s with
        ⟨heq, -⟩ | ⟨slot, b, hfs, -, hfind, -, heq⟩
      · rw [heq]; exact hone
      · rw [heq]
        intro u i
        dsimp only
        have hbk : (if confirmedCount (cancel_erase s user_id slot_id) slot_id
              < slot.max_bookings then
            setAvailable (cancel_erase s user_id slot_id) slot_id true
          else cancel_erase s user_id slot_id).bookings =
            s.bookings.eraseP (isConfirmedBooking user_id slot_id) := by
          split <;> rfl
        rw [hbk]
        exact le_trans
          (List.Sublist.countP_le _ (List.eraseP_sublist s.bookings)) (hone u i)

/-- C5: once the existence, blocked and rate-limit checks pass, booking
at or after the slot start is rejected with the fixed message and no
state change, and a confirmed booking implies the current time was
strictly before the start. -/
theorem C5_booking_time_gate (now : ℤ) (user_id slot_id : ℤ) (s : DBState)
    (user : User) (slot : Slot)
    (hfu : findUser s user_id = some user) (hb : user.blocked = false)
    (hfs : findSlot s slot_id = some slot) :
    (slot.start_time ≤ now →
      book_slot now false user_id slot_id s =
        ("Event is no longer available for booking.", s)) ∧
    ((book_slot now false user_id slot_id s).1 = "Booking confirmed." →
      now < slot.start_time) := by
  constructor
  · intro ht
    unfold book_slot
    rw [hfu]; dsimp only
    rw [if_neg (by simp [hb]), hfs]; dsimp only
    rw [if_neg (by simp), if_pos ht]
  · intro hmsg
    rcases book_slot_spec now false user_id slot_id s with
      ⟨-, hne⟩ | ⟨slot', hfs', -, ht', -, -, -⟩
    · exact absurd hmsg hne
    · rw [hfs] at hfs'
      injection hfs' with h
      rw [h]
      exact ht'

/-- C7: when the user and slot pass validation and no confirmed booking
exists for the pair, `cancel_booking` returns the fixed message and the
state — bookings and every slot field included — is unchanged. -/
theorem C7_cancel_without_booking (now : ℤ) (user_id slot_id : ℤ) (s : DBState)
    (user : User) (slot : Slot)
    (hfu : findUser s user_id = some user) (hb : user.blocked = false)
    (hfs : findSlot s slot_id = some slot)
    (hno : s.bookings.find? (isConfirmedBooking user_id slot_id) = none) :
    cancel_booking now false user_id slot_id s =
      ("No active booking found for this event.", s) := by
  unfold cancel_booking
  rw [hfu]; dsimp only
  rw [if_neg (by simp [hb]), hfs]; dsimp only
  rw [if_neg (by simp), hno]

/-- C9: from a state where every booking guard holds, booking and then
cancelling the same (user, slot) returns the two success messages and
restores the confirmed bookings and the slot (its `available` flag
included) to their pre-book values. -/
theorem C9_book_cancel_roundtrip (now : ℤ) (user_id slot_id : ℤ) (s : DBState)
    (user : User) (slot : Slot)
    (hfu : findUser s user_id = some user) (hb : user.blocked = false)
    (hfs : findSlot s slot_id = some slot) (hav : slot.available = true)
    (ht : now < slot.start_time)
    (hnone : ∀ x ∈ s.bookings, ¬ isConfirmedBooking user_id slot_id x = true)
    (hcap : confirmedCount s slot_id < slot.max_bookings) :
    (book_slot now false user_id slot_id s).1 = "Booking confirmed." ∧
    (cancel_booking now false user_id slot_id
        (book_slot now false user_id slot_id s).2).1 =
      "Booking cancelled successfully." ∧
    (cancel_booking now false user_id slot_id
        (book_slot now false user_id slot_id s).2).2.bookings = s.bookings ∧
    findSlot (cancel_booking now false user_id slot_id
        (book_slot now false user_id slot_id s).2).2 slot_id = some slot := by
  have hnoneF : ∀ x ∈ s.bookings, isConfirmedBooking user_id slot_id x = false :=
    fun x hx => by simpa using hnone x hx
  have hpb : isConfirmedBooking user_id slot_id
      ⟨user_id, slot_id, "confirmed"⟩ = true := by
    simp [isConfirmedBooking]
  have hany : ¬ s.bookings.any (isConfirmedBooking user_id slot_id) = true := by
    rw [List.any_eq_true]
    rintro ⟨x, hx, hpx⟩
    exact hnone x hx hpx
  have hslot_eta : ({ slot with available := true } : Slot) = slot := by
    cases slot
    simp_all
  have hbook : book_slot now false user_id slot_id s =
      ("Booking confirmed.",
        if slot.max_bookings ≤ confirmedCount s slot_id + 1 then
          setAvailable (book_insert s user_id slot_id) slot_id false
        else book_insert s user_id slot_id) := by
    unfold book_slot
    rw [hfu]; dsimp only
    rw [if_neg (by simp [hb]), hfs]; dsimp only
    rw [if_neg (by simp), if_neg (by omega), if_neg hany, if_neg (by omega)]
  rw [hbook]
  dsimp only
  by_cases hfull2 : slot.max_bookings ≤ confirmedCount s slot_id + 1
  · rw [if_pos hfull2]
    have hfu' : findUser (setAvailable (book_insert s user_id slot_id)
        slot_id false) user_id = some user := hfu
    have hfs2 : findSlot (book_insert s user_id slot_id) slot_id = some slot := hfs
    have hfs' : findSlot (setAvailable (book_insert s user_id slot_id)
        slot_id false) slot_id = some { slot with available := false } := by
      rw [findSlot_setAvailable, hfs2]
      rfl
    have hfind' : (setAvailable (book_insert s user_id slot_id)
          slot_id false).bookings.find? (isConfirmedBooking user_id slot_id) =
        some ⟨user_id, slot_id, "confirmed"⟩ :=
      find?_append_singleton hnoneF hpb
    have hbkE : (cancel_erase (setAvailable (book_insert s user_id slot_id)
        slot_id false) user_id slot_id).bookings = s.bookings :=
      eraseP_append_singleton hnoneF hpb
    have hcnt : confirmedCount (cancel_erase (setAvailable
          (book_insert s user_id slot_id) slot_id false) user_id slot_id)
        slot_id = confirmedCount s slot_id := by
      unfold confirmedCount
      rw [hbkE]
    have hcond : confirmedCount (cancel_erase (setAvailable
          (book_insert s user_id slot_id) slot_id false) user_id slot_id)
        slot_id < slot.max_bookings := by
      rw [hcnt]; exact hcap
    have hcancel : cancel_booking now false user_id slot_id
        (setAvailable (book_insert s user_id slot_id) slot_id false) =
        ("Booking cancelled successfully.",
          setAvailable (cancel_erase (setAvailable (book_insert s user_id
            slot_id) slot_id false) user_id slot_id) slot_id true) := by
      unfold cancel_booking
      rw [hfu']; dsimp only
      rw [if_neg (by simp [hb]), hfs']; dsimp only
      rw [if_neg (by simp), hfind']; dsimp only
      rw [if_neg (show ¬ slot.start_time ≤ now by omega), if_pos hcond]
    rw [hcancel]
    refine ⟨rfl, rfl, hbkE, ?_⟩
    rw [findSlot_setAvailable]
    rw [show findSlot (cancel_erase (setAvailable (book_insert s user_id
        slot_id) slot_id false) user_id slot_id) slot_id =
      some { slot with available := false } from hfs']
    show some ({ slot with available := true } : Slot) = some slot
    rw [hslot_eta]
  · rw [if_neg hfull2]
    have hfu' : findUser (book_insert s user_id slot_id) user_id = some user := hfu
    have hfs' : findSlot (book_insert s user_id slot_id) slot_id = some slot := hfs
    have hfind' : (book_insert s user_id slot_id).bookings.find?
        (isConfirmedBooking user_id slot_id) =
        some ⟨user_id, slot_id, "confirmed"⟩ :=
      find?_append_singleton hnoneF hpb
    have hbkE : (cancel_erase (book_insert s user_id slot_id)
        user_id slot_id).bookings = s.bookings :=
      eraseP_append_singleton hnoneF hpb
    have hcnt : confirmedCount (cancel_erase (book_insert s user_id slot_id)
        user_id slot_id) slot_id = confirmedCount s slot_id := by
      unfold confirmedCount
      rw [hbkE]
    have hcond : confirmedCount (cancel_erase (book_insert s user_id slot_id)
        user_id slot_id) slot_id < slot.max_bookings := by
      rw [hcnt]; exact hcap
    have hcancel : cancel_booking now false user_id slot_id
        (book_insert s user_id slot_id) =
        ("Booking cancelled successfully.",
          setAvailable (cancel_erase (book_insert s user_id slot_id)
            user_id slot_id) slot_id true) := by
      unfold cancel_booking
      rw [hfu']; dsimp only
      rw [if_neg (by simp [hb]), hfs']; dsimp only
      rw [if_neg (by simp), hfind']; dsimp only
      rw [if_neg (show ¬ slot.start_time ≤ now by omega), if_pos hcond]
    rw [hcancel]
    refine ⟨rfl, rfl, hbkE, ?_⟩
    rw [findSlot_setAvailable]
    rw [show findSlot (cancel_erase (book_insert s user_id slot_id)
        user_id slot_id) slot_id = some slot from hfs']
    show some ({ slot with available := true } : Slot) = some slot
    rw [hslot_eta]

/-- Witness for C1 on the one-slot sample store. -/
theorem C1_capacity_invariant_witness :
    CapacityInv (book_slot 500 false 1 10 sampleState).2 ∧
    CapacityInv (cancel_booking 500 false 1 10 sampleState).2 :=
  C1_capacity_invariant 500 false 1 10 sampleState (by decide) (by decide)

/-- Witness for C2: a second booking attempt by user 1 is rejected and
the one-booking bound still holds. -/
theorem C2_at_most_one_booking_witness :
    book_slot 500 false 1 10 sampleStateBooked =
      ("You have already booked this event.", sampleStateBooked) ∧
    AtMostOnePerUserSlot (book_slot 500 false 1 10 sampleStateBooked).2 := by
  have hone : AtMostOnePerUserSlot sampleStateBooked := by
    intro u i
    have := List.countP_le_length (p := isConfirmedBooking u i)
      (l := sampleStateBooked.bookings)
    simpa using this
  exact ⟨(C2_at_most_one_booking 500 false 1 10 sampleStateBooked).1
      sampleUser sampleSlot rfl rfl rfl rfl (by decide) (by decide),
    ((C2_at_most_one_booking 500 false 1 10 sampleStateBooked).2 hone).1⟩

/-- Witness for C5: booking at time 5000, after the slot start 1000, is
rejected. -/
theorem C5_booking_time_gate_witness :
    book_slot 5000 false 1 10 sampleState =
      ("Event is no longer available for booking.", sampleState) :=
  (C5_booking_time_gate 5000 1 10 sampleState sampleUser sampleSlot
    rfl rfl rfl).1 (by decide)

/-- Witness for C7: cancelling with no booking on the sample store. -/
theorem C7_cancel_without_booking_witness :
    cancel_booking 500 false 1 10 sampleState =
      ("No active booking found for this event.", sampleState) :=
  C7_cancel_without_booking 500 1 10 sampleState sampleUser sampleSlot
    rfl rfl rfl rfl

/-- Witness for C9: book then cancel on the sample store round-trips. -/
theorem C9_book_cancel_roundtrip_witness :
    (book_slot 500 false 1 10 sampleState).1 = "Booking confirmed." ∧
    (cancel_booking 500 false 1 10
        (book_slot 500 false 1 10 sampleState).2).1 =
      "Booking cancelled successfully." ∧
    (cancel_booking 500 false 1 10
        (book_slot 500 false 1 10 sampleState).2).2.bookings =
      sampleState.bookings ∧
    findSlot (cancel_booking 500 false 1 10
        (book_slot 500 false 1 10 sampleState).2).2 10 = some sampleSlot :=
  C9_book_cancel_roundtrip 500 1 10 sampleState sampleUser sampleSlot
    rfl rfl rfl rfl (by decide) (by decide) (by decide)

lemma get_event_weather_empty {w : List (ℤ × WeatherMetrics)} {a b : ℤ} {th : ℚ}
    (h : (generate_hourly_range a b).filterMap (lookupHour w) = []) :
    get_event_weather w a b th = (none, false, false) := by
  unfold get_event_weather
  rw [h]
  rfl

lemma get_event_weather_nonempty {w : List (ℤ × WeatherMetrics)} {a b : ℤ} {th : ℚ}
    (h : (generate_hourly_range a b).filterMap (lookupHour w) ≠ []) :
    get_event_weather w a b th =
      (some (calculate_average_weather_rating
          ((generate_hourly_range a b).filterMap (lookupHour w))),
        decide (calculate_average_weather_rating
          ((generate_hourly_range a b).filterMap (lookupHour w)) < th),
        true) := by
  obtain ⟨y, ys, hcons⟩ := List.exists_cons_of_ne_nil h
  unfold get_event_weather
  rw [hcons]
  rfl

/-- C6 (amended): `warning` holds iff a rating is present and strictly
below the threshold; `forecastPresent` holds iff some hour of the
inclusive hour-aligned range has data; the returned rating is the
arithmetic mean of the hourly ratings when at least one hour matches and
`none` (not 0) otherwise, while the averaging helper itself yields 0 on
an empty list. -/
theorem C6_event_weather (w : List (ℤ × WeatherMetrics)) (a b : ℤ) (th : ℚ) :
    ((get_event_weather w a b th).2.1 = true ↔
      ∃ r, (get_event_weather w a b th).1 = some r ∧ r < th) ∧
    ((get_event_weather w a b th).2.2 = true ↔
      ∃ h ∈ generate_hourly_range a b, (lookupHour w h).isSome = true) ∧
    ((generate_hourly_range a b).filterMap (lookupHour w) ≠ [] →
      (get_event_weather w a b th).1 =
        some ((((generate_hourly_range a b).filterMap (lookupHour w)).map
            calculate_hourly_rating).sum /
          ((generate_hourly_range a b).filterMap (lookupHour w)).length)) ∧
    ((generate_hourly_range a b).filterMap (lookupHour w) = [] →
      (get_event_weather w a b th).1 = none) ∧
    calculate_average_weather_rating [] = 0 := by
  by_cases hemp : (generate_hourly_range a b).filterMap (lookupHour w) = []
  · rw [get_event_weather_empty hemp]
    refine ⟨by simp, ?_, fun hne => absurd hemp hne, fun _ => rfl, rfl⟩
    simp only [Bool.false_eq_true, false_iff]
    rintro ⟨h, hh, hs⟩
    rw [List.filterMap_eq_nil_iff.mp hemp h hh] at hs
    simp at hs
  · rw [get_event_weather_nonempty hemp]
    refine ⟨by simp, ?_, ?_, fun h => absurd h hemp, rfl⟩
    · simp only [true_iff]
      have hno : ¬ ∀ h ∈ generate_hourly_range a b, lookupHour w h = none :=
        fun hall => hemp (List.filterMap_eq_nil_iff.mpr hall)
      push_neg at hno
      obtain ⟨h, hh, hne⟩ := hno
      exact ⟨h, hh, Option.isSome_iff_ne_none.mpr hne⟩
    · intro _
      unfold calculate_average_weather_rating
      rw [if_neg (by simpa using hemp)]

/-- Counterexample for C6 as stated: with no matching hourly data the
returned aggregate rating is `none`, not 0. -/
theorem C6_counterexample :
    (get_event_weather [] 0 0 50).1 = none ∧
      ¬ (get_event_weather [] 0 0 50).1 = some (0 : ℚ) :=
  ⟨rfl, by decide⟩

/-- Witness for the amended C6 on a one-hour forecast covering the event. -/
theorem C6_event_weather_witness :
    (get_event_weather [(0, ⟨some 0, some 0, some 0, some 20000⟩)] 0 0 70).1 =
      some ((((generate_hourly_range 0 0).filterMap
          (lookupHour [(0, ⟨some 0, some 0, some 0, some 20000⟩)])).map
          calculate_hourly_rating).sum /
        ((generate_hourly_range 0 0).filterMap
          (lookupHour [(0, ⟨some 0, some 0, some 0, some 20000⟩)])).length) :=
  (C6_event_weather [(0, ⟨some 0, some 0, some 0, some 20000⟩)] 0 0 70).2.2.1
    (by decide)

/-- C8: the periodic refresh leaves bookings and users untouched;
an upcoming slot is refreshed in place; a slot with no matching forecast
hour only gets `weather_forecast := false` (its rating stays unset when
it was unset, and every non-weather field is unchanged); a slot with
matching hours gets the mean rating, `warning = (rating < threshold)`
and `weather_forecast := true` with non-weather fields unchanged. -/
theorem C8_weather_refresh (now_utc : ℤ)
    (forecast : List (ℤ × WeatherMetrics)) (th : ℚ) (e : Slot) (s : DBState) :
    ((update_events_weather now_utc forecast th s).bookings = s.bookings ∧
      (update_events_weather now_utc forecast th s).users = s.users) ∧
    (is_upcoming now_utc e = true → e ∈ s.slots →
      update_event_weather e forecast th ∈
        (update_events_weather now_utc forecast th s).slots) ∧
    ((generate_hourly_range e.start_time e.end_time).filterMap
        (lookupHour forecast) = [] →
      update_event_weather e forecast th =
        { e with weather_forecast := false } ∧
      (e.weather_rating = none →
        (update_event_weather e forecast th).weather_rating = none)) ∧
    ((generate_hourly_range e.start_time e.end_time).filterMap
        (lookupHour forecast) ≠ [] →
      update_event_weather e forecast th =
        { e with
          weather_rating := some (calculate_average_weather_rating
            ((generate_hourly_range e.start_time e.end_time).filterMap
              (lookupHour forecast)))
          weather_warning := decide (calculate_average_weather_rating
            ((generate_hourly_range e.start_time e.end_time).filterMap
              (lookupHour forecast)) < th)
          weather_forecast := true }) := by
  refine ⟨⟨rfl, rfl⟩, ?_, ?_, ?_⟩
  · intro hup hmem
    exact List.mem_map.mpr ⟨e, hmem, by rw [if_pos hup]⟩
  · intro hempty
    have heq : update_event_weather e forecast th =
        { e with weather_forecast := false } := by
      unfold update_event_weather
      rw [hempty]
      rfl
    exact ⟨heq, fun h0 => by rw [heq]; exact h0⟩
  · intro hne
    obtain ⟨y, ys, hcons⟩ := List.exists_cons_of_ne_nil hne
    unfold update_event_weather
    rw [hcons]
    rfl

/-- Witness for C8: the sample slot with an empty forecast map keeps its
unset rating and only loses the forecast flag; with a covering forecast
hour it gets the mean rating. -/
theorem C8_weather_refresh_witness :
    (update_event_weather sampleSlot [] 70 =
      { sampleSlot with weather_forecast := false } ∧
     (update_event_weather sampleSlot [] 70).weather_rating = none) ∧
    update_event_weather sampleSlot [(0, ⟨some 0, some 0, some 0, some 20000⟩)] 70 =
      { sampleSlot with
        weather_rating := some (calculate_average_weather_rating
          ((generate_hourly_range sampleSlot.start_time
            sampleSlot.end_time).filterMap
            (lookupHour [(0, ⟨some 0, some 0, some 0, some 20000⟩)])))
        weather_warning := decide (calculate_average_weather_rating
          ((generate_hourly_range sampleSlot.start_time
            sampleSlot.end_time).filterMap
            (lookupHour [(0, ⟨some 0, some 0, some 0, some 20000⟩)])) < 70)
        weather_forecast := true } := by
  have h1 := (C8_weather_refresh 500 [] 70 sampleSlot sampleState).2.2.1 (by decide)
  have h2 := (C8_weather_refresh 500
    [(0, ⟨some 0, some 0, some 0, some 20000⟩)] 70 sampleSlot sampleState).2.2.2
    (by decide)
  exact ⟨⟨h1.1, h1.2 rfl⟩, h2⟩

/-- C4: `save_event` evaluates the four overlap rules in the fixed order
with first match winning and no write on rejection; each rule reads as
stated in the spec (same UTC day, previous-day spill-over, next-day
spill-over, strict general interval overlap); every check excludes the
slot being edited by identity; and two slots touching exactly at an
endpoint do not satisfy the rule-4 predicate. -/
theorem C4_overlap_rules (slots : List Slot) (existing : Option ℤ)
    (new_id : ℤ) (title description : String) (start_time end_time : ℤ)
    (max_bookings : ℕ) (wr : Option ℚ) (ww wf : Bool) :
    (check_same_day_start slots existing start_time = true →
      save_event slots existing new_id title description start_time end_time
          max_bookings wr ww wf =
        ("Only one event can start per day.", slots)) ∧
    (check_same_day_start slots existing start_time = false →
      check_prev_day_overlap slots existing start_time = true →
      save_event slots existing new_id title description start_time end_time
          max_bookings wr ww wf =
        ("Start time overlaps with previous day\x27s event.", slots)) ∧
    (check_same_day_start slots existing start_time = false →
      check_prev_day_overlap slots existing start_time = false →
      check_next_day_overlap slots existing end_time = true →
      save_event slots existing new_id title description start_time end_time
          max_bookings wr ww wf =
        ("End time overlaps with next day\x27s event.", slots)) ∧
    (∀ t, check_same_day_start slots existing start_time = false →
      check_prev_day_overlap slots existing start_time = false →
      check_next_day_overlap slots existing end_time = false →
      find_general_overlap slots existing start_time end_time = some t →
      save_event slots existing new_id title description start_time end_time
          max_bookings wr ww wf =
        ("Time conflict with another event (ID: " ++ toString t.id ++ ").",
          slots)) ∧
    (check_same_day_start slots existing start_time = true ↔
      ∃ t ∈ otherSlots slots existing,
        day_floor t.start_time = day_floor start_time) ∧
    (check_prev_day_overlap slots existing start_time = true ↔
      ∃ t ∈ otherSlots slots existing,
        day_floor t.start_time = day_floor start_time - 86400 ∧
          start_time < t.end_time) ∧
    (check_next_day_overlap slots existing end_time = true ↔
      ∃ t ∈ otherSlots slots existing,
        day_floor t.start_time = day_floor end_time + 86400 ∧
          t.start_time < end_time) ∧
    ((find_general_overlap slots existing start_time end_time).isSome ↔
      ∃ t ∈ otherSlots slots existing,
        start_time < t.end_time ∧ t.start_time < end_time) ∧
    (∀ eid t, t ∈ otherSlots slots (some eid) ↔ t ∈ slots ∧ ¬ t.id = eid) ∧
    (∀ t : Slot, t.end_time = start_time ∨ t.start_time = end_time →
      (decide (start_time < t.end_time) && decide (t.start_time < end_time))
        = false) := by
  refine ⟨?_, ?_, ?_, ?_, ?_, ?_, ?_, ?_, ?_, ?_⟩
  · intro h1
    unfold save_event
    rw [if_pos h1]
  · intro h1 h2
    unfold save_event
    rw [if_neg (by simp [h1]), if_pos h2]
  · intro h1 h2 h3
    unfold save_event
    rw [if_neg (by simp [h1]), if_neg (by simp [h2]), if_pos h3]
  · intro t h1 h2 h3 h4
    unfold save_event
    rw [if_neg (by simp [h1]), if_neg (by simp [h2]), if_neg (by simp [h3]),
      h4]
  · unfold check_same_day_start
    simp only [List.any_eq_true, Bool.and_eq_true, decide_eq_true_eq]
    constructor
    · rintro ⟨t, ht, h1, h2⟩
      exact ⟨t, ht, by unfold day_floor at *; omega⟩
    · rintro ⟨t, ht, h⟩
      exact ⟨t, ht, by unfold day_floor at *; omega,
        by unfold day_floor at *; omega⟩
  · unfold check_prev_day_overlap
    simp only [List.any_eq_true, Bool.and_eq_true, decide_eq_true_eq]
    constructor
    · rintro ⟨t, ht, h1, h2, h3⟩
      exact ⟨t, ht, by unfold day_floor at *; omega, h3⟩
    · rintro ⟨t, ht, h, h3⟩
      exact ⟨t, ht, by unfold day_floor at *; omega,
        by unfold day_floor at *; omega, h3⟩
  · unfold check_next_day_overlap
    simp only [List.any_eq_true, Bool.and_eq_true, decide_eq_true_eq]
    constructor
    · rintro ⟨t, ht, h1, h2, h3⟩
      exact ⟨t, ht, by unfold day_floor at *; omega, h3⟩
    · rintro ⟨t, ht, h, h3⟩
      exact ⟨t, ht, by unfold day_floor at *; omega,
        by unfold day_floor at *; omega, h3⟩
  · unfold find_general_overlap
    simp [List.find?_isSome]
  · intro eid t
    unfold otherSlots
    rw [List.mem_filter]
    simp
  · intro t h
    rcases h with h | h <;> simp [h]

/-- Witness for C4: a new event on the same UTC day as the sample slot
is rejected by rule 1 with no write. -/
theorem C4_overlap_rules_witness :
    save_event [sampleSlot] none 11 "A" "B" 2000 3000 2 none false false =
      ("Only one event can start per day.", [sampleSlot]) :=
  (C4_overlap_rules [sampleSlot] none 11 "A" "B" 2000 3000 2
    none false false).1 (by decide)

end ObservatoryBooking
